import Mathlib

/-!
Shallow embedding of the `dbstorage` package of go-metricts: the metrics
table semantics, the error classifier `parseRetriableError`, the retry loop
wrapped around every store operation (`SetGauge`, `AddCounter`, `GetGauge`,
`GetCounter`, `GetAll`), store construction (`New` / `buildPrepares`), and
the HTTP update handlers (`UpdateByURI`, `UpdateByBody`).

The database engine, the sqlx driver and the pgerrcode helper are external
collaborators of the repository; they are embedded by their contracts:
the table is a list of rows with the UNIQUE(name, mtype) upsert semantics of
the prepared `setOrUpdateMetric` statement, a read that matches no row fails
with the driver's `errNoRows` error, and executing a prepared statement that
was never compiled (a nil pointer in Go) is a crash (panic), not an error.
Fault injection is explicit: an oracle `faults : Nat → Option DBError` says
whether attempt number `i` reaches the database (`none`) or fails with a
given error before taking effect.
-/

/-- One persisted row of the `metrics` table: columns name, mtype, delta,
value.  The surrogate `_id` primary key is omitted (no operation reads it);
DOUBLE PRECISION is modelled as `Rat` (the code only stores and returns
gauge values, it never computes with them). -/
structure MetricRow where
  name : String
  mtype : String
  delta : Int
  value : Rat
deriving DecidableEq, Repr

/-- Errors a database call can surface, by the dynamic class the classifier
inspects: a low-level `net.OpError` transport fault, a `pgconn.PgError`
carrying a five-character SQLSTATE code, the driver's `sql.ErrNoRows` from a
row-less `Get`, or any other error. -/
inductive DBError where
  | netOpError (msg : String)
  | pgError (code : String)
  | errNoRows
  | otherError (msg : String)
deriving DecidableEq, Repr

/-- The detail value `errs.NewDatabaseError(label, err)` built by the
classifier for a retriable error. -/
structure DatabaseError where
  label : String
  cause : DBError
deriving DecidableEq, Repr

/-- Modelled from the spec: `pgerrcode.IsConnectionException` (external
library, not part of the repository) — true exactly when the SQLSTATE code
belongs to the connection-exception class, i.e. class 08. -/
def isConnectionException (code : String) : Bool :=
  code.take 2 == "08"

/-- The classifier `parseRetriableError`: nil is not retriable; a
`net.OpError` is retriable; a `pgconn.PgError` is retriable exactly when its
code is in the connection-exception class; everything else is not
retriable.  Returns the retriability flag together with the wrapped
`DatabaseError` detail (present only on the retriable outcomes). -/
def parseRetriableError : Option DBError → Bool × Option DatabaseError
  | none => (false, none)
  | some e =>
    match e with
    | DBError.netOpError m => (true, some ⟨"net.OpError", DBError.netOpError m⟩)
    | DBError.pgError code =>
      if isConnectionException code then
        (true, some ⟨"pgconn.PgError", DBError.pgError code⟩)
      else
        (false, none)
    | DBError.errNoRows => (false, none)
    | DBError.otherError _ => (false, none)

/-- The module-level retry schedule `maximumNumberOfRetries = []int{1, 3, 5}`:
one attempt per entry, the entry being the sleep (in seconds) performed after
that attempt fails retriably. -/
def maximumNumberOfRetries : List Nat := [1, 3, 5]

/-- Does row `r` match the uniqueness key (name, mtype)? -/
def matchesKey (r : MetricRow) (name mtype : String) : Bool :=
  r.name == name && r.mtype == mtype

/-- The engine's row lookup for the two prepared SELECT statements:
the first (by the UNIQUE constraint: only) row with the given key. -/
def selectRow (db : List MetricRow) (name mtype : String) : Option MetricRow :=
  db.find? (fun r => matchesKey r name mtype)

/-- The prepared `setOrUpdateMetric` statement: INSERT a row (name, mtype,
delta, value); ON CONFLICT of UNIQUE(name, mtype) — i.e. exactly when a row
with that key already exists — update the existing row to
`delta = metrics.delta + excluded.delta, value = excluded.value`. -/
def upsert (db : List MetricRow) (name mtype : String) (delta : Int) (value : Rat) :
    List MetricRow :=
  match selectRow db name mtype with
  | some _ =>
    db.map (fun r =>
      if matchesKey r name mtype then
        { r with delta := r.delta + delta, value := value }
      else r)
  | none => db ++ [{ name := name, mtype := mtype, delta := delta, value := value }]

/-- Outcome of one attempt (one statement execution): success with a result
and the new database state, total failure with an error (the database state
is unchanged), or a Go panic (executing a statement that was never
prepared dereferences a nil pointer). -/
inductive Attempt (α : Type) where
  | ok (v : α) (db : List MetricRow)
  | fail (e : DBError)
  | crash
deriving DecidableEq, Repr

/-- Result of one whole store operation: final database state, the
operation's named result value, the named error return, how many attempts
were started, total seconds slept, and whether the operation panicked
(in which case the other fields are meaningless — a panic returns nothing). -/
structure RunResult (α : Type) where
  db : List MetricRow
  val : α
  err : Option DBError
  attempts : Nat
  slept : Nat
  crashed : Bool
deriving DecidableEq, Repr

/-- The retry loop shared (textually repeated) by every store operation:
`for _, timeSleep := range schedule { err = attempt(); if ok, _ :=
parseRetriableError(err); !ok { return }; sleep(timeSleep) }; return err`.
`exec i db` is attempt number `i` run against database state `db`; `v` and
`e` accumulate the named return values across iterations; `s` accumulates
sleep.  Note the loop sleeps after every retriable failure, including the
one in the final iteration. -/
def retryRun {α : Type} (exec : Nat → List MetricRow → Attempt α) :
    List Nat → Nat → List MetricRow → α → Option DBError → Nat → RunResult α
  | [], i, db, v, e, s => ⟨db, v, e, i, s, false⟩
  | t :: rest, i, db, v, e, s =>
    match exec i db with
    | Attempt.ok v' db' => ⟨db', v', none, i + 1, s, false⟩
    | Attempt.fail e' =>
      if (parseRetriableError (some e')).fst then
        retryRun exec rest (i + 1) db v (some e') (s + t)
      else
        ⟨db, v, some e', i + 1, s, false⟩
    | Attempt.crash => ⟨db, v, none, i + 1, s, true⟩

/-- The `databaseStorage` handle: after construction the only state that
the embedded operations depend on is whether `buildPrepares` ever ran
(it is skipped when the construction-time ping fails, leaving all three
prepared statements nil). -/
structure DatabaseStorage where
  preparesBuilt : Bool
deriving DecidableEq, Repr

/-- One attempt of the prepared upsert statement: a nil statement (prepares
never built) panics; otherwise the attempt fails with the injected fault or
executes the upsert. -/
def execSetOrUpdate (preparesBuilt : Bool) (faults : Nat → Option DBError)
    (name mtype : String) (delta : Int) (value : Rat)
    (i : Nat) (db : List MetricRow) : Attempt Unit :=
  if preparesBuilt then
    match faults i with
    | some e => Attempt.fail e
    | none => Attempt.ok () (upsert db name mtype delta value)
  else
    Attempt.crash

/-- One attempt of the prepared `getGaugeMetric` statement
(`SELECT value FROM metrics WHERE name = :name AND mtype = 'gauge'` through
sqlx `GetContext`): a nil statement panics; an injected fault fails; with no
matching row `GetContext` fails with `errNoRows`; otherwise it returns the
row's value and leaves the database unchanged. -/
def execGetGauge (preparesBuilt : Bool) (faults : Nat → Option DBError)
    (name : String) (i : Nat) (db : List MetricRow) : Attempt (Option Rat) :=
  if preparesBuilt then
    match faults i with
    | some e => Attempt.fail e
    | none =>
      match selectRow db name "gauge" with
      | some r => Attempt.ok (some r.value) db
      | none => Attempt.fail DBError.errNoRows
  else
    Attempt.crash

/-- One attempt of the prepared `getCounterMetric` statement, symmetric to
`execGetGauge` but selecting `delta` for `mtype = 'counter'`. -/
def execGetCounter (preparesBuilt : Bool) (faults : Nat → Option DBError)
    (name : String) (i : Nat) (db : List MetricRow) : Attempt (Option Int) :=
  if preparesBuilt then
    match faults i with
    | some e => Attempt.fail e
    | none =>
      match selectRow db name "counter" with
      | some r => Attempt.ok (some r.delta) db
      | none => Attempt.fail DBError.errNoRows
  else
    Attempt.crash

/-- One attempt of `GetAll`'s ad-hoc
`SELECT name, mtype, delta, value FROM metrics` (run through
`db.SelectContext`, not through a prepared statement, so it cannot hit a nil
statement): an injected fault fails; otherwise it returns every row. -/
def execGetAll (faults : Nat → Option DBError)
    (i : Nat) (db : List MetricRow) : Attempt (List MetricRow) :=
  match faults i with
  | some e => Attempt.fail e
  | none => Attempt.ok db db

/-- `SetGauge(name, value)`: the prepared upsert with mtype gauge and
delta 0, wrapped in the retry loop over `maximumNumberOfRetries`. -/
def SetGauge (st : DatabaseStorage) (faults : Nat → Option DBError)
    (db : List MetricRow) (name : String) (value : Rat) : RunResult Unit :=
  retryRun (execSetOrUpdate st.preparesBuilt faults name "gauge" 0 value)
    maximumNumberOfRetries 0 db () none 0

/-- `AddCounter(name, delta)`: the prepared upsert with mtype counter and
value 0.0, wrapped in the retry loop over `maximumNumberOfRetries`. -/
def AddCounter (st : DatabaseStorage) (faults : Nat → Option DBError)
    (db : List MetricRow) (name : String) (delta : Int) : RunResult Unit :=
  retryRun (execSetOrUpdate st.preparesBuilt faults name "counter" delta 0)
    maximumNumberOfRetries 0 db () none 0

/-- `GetGauge(name)`: the prepared gauge read wrapped in the retry loop; the
named return `value *float64` starts out nil and is only assigned by a
successful attempt. -/
def GetGauge (st : DatabaseStorage) (faults : Nat → Option DBError)
    (db : List MetricRow) (name : String) : RunResult (Option Rat) :=
  retryRun (execGetGauge st.preparesBuilt faults name)
    maximumNumberOfRetries 0 db none none 0

/-- `GetCounter(name)`: the prepared counter read wrapped in the retry loop. -/
def GetCounter (st : DatabaseStorage) (faults : Nat → Option DBError)
    (db : List MetricRow) (name : String) : RunResult (Option Int) :=
  retryRun (execGetCounter st.preparesBuilt faults name)
    maximumNumberOfRetries 0 db none none 0

/-- `GetAll()`: the unprepared select-everything wrapped in the retry loop;
the named return slice starts out nil (embedded as the empty list). -/
def GetAll (st : DatabaseStorage) (faults : Nat → Option DBError)
    (db : List MetricRow) : RunResult (List MetricRow) :=
  retryRun (execGetAll faults) maximumNumberOfRetries 0 db [] none 0

/-- The fault-free oracle: every attempt reaches the database. -/
def noFaults : Nat → Option DBError := fun _ => none

/-- Construction-time environment of `New`: the outcome of the 10-second
ping, of the CREATE TABLE DDL, and of each of the three statement
compilations in `buildPrepares` (`none` = success). -/
structure ConstructionEnv where
  pingErr : Option DBError
  ddlErr : Option DBError
  prepGetGaugeErr : Option DBError
  prepGetCounterErr : Option DBError
  prepSetOrUpdateErr : Option DBError
deriving DecidableEq, Repr

/-- `buildPrepares`: compiles the three named statements, returning the
first compilation error, else nil.  (Go iterates a map, whose order is
unspecified; the embedding fixes the order getGaugeMetric, getCounterMetric,
setOrUpdateMetric — every claim here is insensitive to the order.) -/
def buildPrepares (env : ConstructionEnv) : Option DBError :=
  match env.prepGetGaugeErr with
  | some e => some e
  | none =>
    match env.prepGetCounterErr with
    | some e => some e
    | none => env.prepSetOrUpdateErr

/-- `New(db, log)`: ping with a 10s timeout; on ping failure log and return
the storage handle with nil prepares and a nil error (degraded success).
Otherwise run the CREATE TABLE DDL (failure is fatal), then `buildPrepares`
(failure is fatal), and return the fully built handle. -/
def New (env : ConstructionEnv) : Except DBError DatabaseStorage :=
  match env.pingErr with
  | some _ => Except.ok ⟨false⟩
  | none =>
    match env.ddlErr with
    | some e => Except.error e
    | none =>
      match buildPrepares env with
      | some e => Except.error e
      | none => Except.ok ⟨true⟩

/-- An `UpdateByURI` request after routing: whether the content type check
passes, the `name`, `type` and `value` path parameters, with the value given
as the result of the branch's `strconv` parse (`none` = parse error).
`validateContentType` and `handleBadRequest` live outside src/ and are
abstracted to the boolean and the literal 400 they amount to. -/
structure URIRequest where
  contentTypeOk : Bool
  name : String
  mtype : String
  parsedValue : Option Rat
  parsedDelta : Option Int
deriving DecidableEq, Repr

/-- `UpdateByURI`: bad content type → 400; empty name → 404; gauge →
parse the value (failure → 400) and call `SetGauge`, discarding its error;
counter → parse the delta (failure → 400) and call `AddCounter`, discarding
its error; unknown type → 400; reaching the end → 200.  The outcome of the
storage write, `writeErr`, is received and never consulted — the Go code
calls `bh.storage.SetGauge` / `bh.storage.AddCounter` as bare statements. -/
def UpdateByURI (req : URIRequest) (writeErr : Option DBError) : Nat :=
  if req.contentTypeOk = false then 400
  else if req.name = "" then 404
  else if req.mtype = "gauge" then
    match req.parsedValue with
    | none => 400
    | some _ => 200
  else if req.mtype = "counter" then
    match req.parsedDelta with
    | none => 400
    | some _ => 200
  else 400

/-- An `UpdateByBody` request: content-type check, the JSON bind outcome
(`bindOk` with the status `validateAndShouldBindJSON` reports on failure),
and the decoded metric type.  The validators live outside src/ and are
abstracted to their outcomes. -/
structure BodyRequest where
  contentTypeOk : Bool
  bindOk : Bool
  bindFailStatus : Nat
  mtype : String
deriving DecidableEq, Repr

/-- `UpdateByBody`: bad content type → 400; failed bind → the validator's
status; otherwise call `SetGauge` or `AddCounter` discarding the write error
(`writeErr`), for a counter additionally `GetCounter` whose error is only
logged (`counterReadErr`), and respond 200 with the object.  Neither storage
outcome influences the response status. -/
def UpdateByBody (req : BodyRequest) (writeErr : Option DBError)
    (counterReadErr : Option DBError) : Nat :=
  if req.contentTypeOk = false then 400
  else if req.bindOk = false then req.bindFailStatus
  else 200

/-! Helper lemmas: stepping the retry loop. -/

theorem retryRun_nil {α : Type} (exec : Nat → List MetricRow → Attempt α)
    (i : Nat) (db : List MetricRow) (v : α) (e : Option DBError) (s : Nat) :
    retryRun exec [] i db v e s = ⟨db, v, e, i, s, false⟩ := rfl

theorem retryRun_cons_ok {α : Type} {exec : Nat → List MetricRow → Attempt α}
    {i : Nat} {db db' : List MetricRow} {v' : α} (t : Nat) (rest : List Nat)
    (v : α) (e : Option DBError) (s : Nat) (h : exec i db = Attempt.ok v' db') :
    retryRun exec (t :: rest) i db v e s = ⟨db', v', none, i + 1, s, false⟩ := by
  simp [retryRun, h]

theorem retryRun_cons_fail_retriable {α : Type}
    {exec : Nat → List MetricRow → Attempt α} {i : Nat} {db : List MetricRow}
    {e' : DBError} (t : Nat) (rest : List Nat) (v : α) (e : Option DBError)
    (s : Nat) (h : exec i db = Attempt.fail e')
    (hr : (parseRetriableError (some e')).fst = true) :
    retryRun exec (t :: rest) i db v e s =
      retryRun exec rest (i + 1) db v (some e') (s + t) := by
  simp [retryRun, h, hr]

theorem retryRun_cons_fail_final {α : Type}
    {exec : Nat → List MetricRow → Attempt α} {i : Nat} {db : List MetricRow}
    {e' : DBError} (t : Nat) (rest : List Nat) (v : α) (e : Option DBError)
    (s : Nat) (h : exec i db = Attempt.fail e')
    (hr : (parseRetriableError (some e')).fst = false) :
    retryRun exec (t :: rest) i db v e s = ⟨db, v, some e', i + 1, s, false⟩ := by
  simp [retryRun, h, hr]

theorem retryRun_cons_crash {α : Type} {exec : Nat → List MetricRow → Attempt α}
    {i : Nat} {db : List MetricRow} (t : Nat) (rest : List Nat) (v : α)
    (e : Option DBError) (s : Nat) (h : exec i db = Attempt.crash) :
    retryRun exec (t :: rest) i db v e s = ⟨db, v, none, i + 1, s, true⟩ := by
  simp [retryRun, h]

/-- A run that neither panicked nor returned an error got its value and
final database state from some successful attempt against the unchanged
input database (failed attempts never modify it). -/
theorem retryRun_success_of {α : Type} {exec : Nat → List MetricRow → Attempt α}
    {db : List MetricRow} (P : α → List MetricRow → Prop)
    (hok : ∀ i v' db', exec i db = Attempt.ok v' db' → P v' db') :
    ∀ (sched : List Nat) (i : Nat) (v : α) (e : Option DBError) (s : Nat),
      (e = none → sched ≠ []) →
      (retryRun exec sched i db v e s).crashed = false →
      (retryRun exec sched i db v e s).err = none →
      P (retryRun exec sched i db v e s).val (retryRun exec sched i db v e s).db := by
  intro sched
  induction sched with
  | nil =>
    intro i v e s hne hcr herr
    rw [retryRun_nil] at herr
    exact absurd rfl (hne herr)
  | cons t rest ih =>
    intro i v e s hne hcr herr
    cases hx : exec i db with
    | ok v' db' =>
      rw [retryRun_cons_ok t rest v e s hx]
      exact hok i v' db' hx
    | fail e' =>
      cases hr : (parseRetriableError (some e')).fst with
      | true =>
        rw [retryRun_cons_fail_retriable t rest v e s hx hr] at hcr herr ⊢
        exact ih (i + 1) v (some e') (s + t)
          (fun hc => absurd hc (Option.some_ne_none e')) hcr herr
      | false =>
        rw [retryRun_cons_fail_final t rest v e s hx hr] at herr
        simp at herr
    | crash =>
      rw [retryRun_cons_crash t rest v e s hx] at hcr
      simp at hcr

/-- A `SetGauge` run that neither panicked nor errored applied exactly one
gauge upsert with delta 0 to the input database. -/
theorem SetGauge_success_db (st : DatabaseStorage) (faults : Nat → Option DBError)
    (db : List MetricRow) (name : String) (value : Rat)
    (hcr : (SetGauge st faults db name value).crashed = false)
    (herr : (SetGauge st faults db name value).err = none) :
    (SetGauge st faults db name value).db = upsert db name "gauge" 0 value := by
  refine retryRun_success_of (fun _ dbf => dbf = upsert db name "gauge" 0 value)
    ?_ maximumNumberOfRetries 0 () none 0 (fun _ => by simp [maximumNumberOfRetries]) hcr herr
  intro i v' db' h
  cases hpb : st.preparesBuilt <;> rw [hpb] at h
  · simp [execSetOrUpdate] at h
  · cases hf : faults i with
    | some e => simp [execSetOrUpdate, hf] at h
    | none =>
      simp [execSetOrUpdate, hf] at h
      exact h.symm

/-- An `AddCounter` run that neither panicked nor errored applied exactly
one counter upsert with value 0 to the input database. -/
theorem AddCounter_success_db (st : DatabaseStorage) (faults : Nat → Option DBError)
    (db : List MetricRow) (name : String) (delta : Int)
    (hcr : (AddCounter st faults db name delta).crashed = false)
    (herr : (AddCounter st faults db name delta).err = none) :
    (AddCounter st faults db name delta).db = upsert db name "counter" delta 0 := by
  refine retryRun_success_of (fun _ dbf => dbf = upsert db name "counter" delta 0)
    ?_ maximumNumberOfRetries 0 () none 0 (fun _ => by simp [maximumNumberOfRetries]) hcr herr
  intro i v' db' h
  cases hpb : st.preparesBuilt <;> rw [hpb] at h
  · simp [execSetOrUpdate] at h
  · cases hf : faults i with
    | some e => simp [execSetOrUpdate, hf] at h
    | none =>
      simp [execSetOrUpdate, hf] at h
      exact h.symm

/-- A `GetGauge` run that neither panicked nor errored returned the stored
gauge value for the name and left the database unchanged. -/
theorem GetGauge_success (st : DatabaseStorage) (faults : Nat → Option DBError)
    (db : List MetricRow) (name : String)
    (hcr : (GetGauge st faults db name).crashed = false)
    (herr : (GetGauge st faults db name).err = none) :
    (GetGauge st faults db name).val = (selectRow db name "gauge").map (fun r => r.value) ∧
    (GetGauge st faults db name).db = db := by
  refine retryRun_success_of
    (fun vf dbf => vf = (selectRow db name "gauge").map (fun r => r.value) ∧ dbf = db)
    ?_ maximumNumberOfRetries 0 none none 0 (fun _ => by simp [maximumNumberOfRetries]) hcr herr
  intro i v' db' h
  cases hpb : st.preparesBuilt <;> rw [hpb] at h
  · simp [execGetGauge] at h
  · cases hf : faults i with
    | some e => simp [execGetGauge, hf] at h
    | none =>
      cases hs : selectRow db name "gauge" with
      | none => simp [execGetGauge, hf, hs] at h
      | some r =>
        simp [execGetGauge, hf, hs] at h
        exact ⟨h.1.symm, h.2.symm⟩

/-- A `GetCounter` run that neither panicked nor errored returned the stored
counter delta for the name and left the database unchanged. -/
theorem GetCounter_success (st : DatabaseStorage) (faults : Nat → Option DBError)
    (db : List MetricRow) (name : String)
    (hcr : (GetCounter st faults db name).crashed = false)
    (herr : (GetCounter st faults db name).err = none) :
    (GetCounter st faults db name).val = (selectRow db name "counter").map (fun r => r.delta) ∧
    (GetCounter st faults db name).db = db := by
  refine retryRun_success_of
    (fun vf dbf => vf = (selectRow db name "counter").map (fun r => r.delta) ∧ dbf = db)
    ?_ maximumNumberOfRetries 0 none none 0 (fun _ => by simp [maximumNumberOfRetries]) hcr herr
  intro i v' db' h
  cases hpb : st.preparesBuilt <;> rw [hpb] at h
  · simp [execGetCounter] at h
  · cases hf : faults i with
    | some e => simp [execGetCounter, hf] at h
    | none =>
      cases hs : selectRow db name "counter" with
      | none => simp [execGetCounter, hf, hs] at h
      | some r =>
        simp [execGetCounter, hf, hs] at h
        exact ⟨h.1.symm, h.2.symm⟩

/-! Helper lemmas: the upsert against the UNIQUE(name, mtype) table. -/

theorem matchesKey_iff (r : MetricRow) (name mtype : String) :
    matchesKey r name mtype = true ↔ r.name = name ∧ r.mtype = mtype := by
  simp [matchesKey]

/-- The row-update function of the conflict branch never changes a row's
key, so it never changes which rows a key lookup can return. -/
theorem matchesKey_update (r : MetricRow) (name mtype name' mtype' : String)
    (delta : Int) (value : Rat) :
    matchesKey
      (if matchesKey r name mtype then
        { r with delta := r.delta + delta, value := value }
      else r) name' mtype' = matchesKey r name' mtype' := by
  by_cases hm : matchesKey r name mtype = true
  · rw [if_pos hm]
    simp [matchesKey]
  · rw [if_neg hm]

/-- Inserting into a table with no (name, mtype) row makes the lookup of
that key find exactly the inserted row. -/
theorem selectRow_upsert_self_of_none (db : List MetricRow) (name mtype : String)
    (delta : Int) (value : Rat) (h : selectRow db name mtype = none) :
    selectRow (upsert db name mtype delta value) name mtype =
      some { name := name, mtype := mtype, delta := delta, value := value } := by
  unfold upsert
  rw [h]
  unfold selectRow at h ⊢
  rw [List.find?_append, h]
  simp [matchesKey]

/-- Upserting over an existing (name, mtype) row makes the lookup of that
key find the merged row: delta accumulated, value replaced. -/
theorem selectRow_upsert_self_of_some (db : List MetricRow) (name mtype : String)
    (delta : Int) (value : Rat) (r0 : MetricRow)
    (h : selectRow db name mtype = some r0) :
    selectRow (upsert db name mtype delta value) name mtype =
      some { name := r0.name, mtype := r0.mtype, delta := r0.delta + delta, value := value } := by
  unfold upsert
  rw [h]
  unfold selectRow at h ⊢
  rw [List.find?_map]
  have hpf : ((fun r => matchesKey r name mtype) ∘
      (fun r => if matchesKey r name mtype then
        { r with delta := r.delta + delta, value := value } else r)) =
      fun r => matchesKey r name mtype := by
    funext r
    exact matchesKey_update r name mtype name mtype delta value
  rw [hpf, h]
  have hr0 : matchesKey r0 name mtype = true := by
    have h' := List.find?_some h
    simpa using h'
  simp [hr0]

/-- An upsert of key (name, mtype) leaves the lookup of every other key
unchanged: the insert branch appends a row of a different key, the conflict
branch rewrites only rows of key (name, mtype) and preserves keys. -/
theorem selectRow_upsert_frame (db : List MetricRow) (name mtype name' mtype' : String)
    (delta : Int) (value : Rat) (h : ¬(name' = name ∧ mtype' = mtype)) :
    selectRow (upsert db name mtype delta value) name' mtype' =
      selectRow db name' mtype' := by
  unfold upsert
  cases hs : selectRow db name mtype with
  | none =>
    unfold selectRow
    rw [List.find?_append]
    have hrow : matchesKey
        { name := name, mtype := mtype, delta := delta, value := value }
        name' mtype' = false := by
      cases hmk : matchesKey
          { name := name, mtype := mtype, delta := delta, value := value }
          name' mtype' with
      | false => rfl
      | true =>
        rcases (matchesKey_iff _ _ _).mp hmk with ⟨h1, h2⟩
        exact absurd ⟨h1.symm, h2.symm⟩ h
    simp [hrow]
  | some r0 =>
    unfold selectRow
    rw [List.find?_map]
    have hpf : ((fun r => matchesKey r name' mtype') ∘
        (fun r => if matchesKey r name mtype then
          { r with delta := r.delta + delta, value := value } else r)) =
        fun r => matchesKey r name' mtype' := by
      funext r
      exact matchesKey_update r name mtype name' mtype' delta value
    rw [hpf]
    cases hq : db.find? (fun r => matchesKey r name' mtype') with
    | none => rfl
    | some a =>
      have ha : matchesKey a name' mtype' = true := by
        have h' := List.find?_some hq
        simpa using h'
      have hak : matchesKey a name mtype = false := by
        cases hmk : matchesKey a name mtype with
        | false => rfl
        | true =>
          rcases (matchesKey_iff _ _ _).mp hmk with ⟨h1, h2⟩
          rcases (matchesKey_iff _ _ _).mp ha with ⟨h1', h2'⟩
          exact absurd ⟨h1'.symm.trans h1, h2'.symm.trans h2⟩ h
      simp [hak]

/-- If attempt 0 succeeds, the whole operation is that one attempt: no
retry, no sleep, nil error. -/
theorem retryRun_sched_first_ok {α : Type} {exec : Nat → List MetricRow → Attempt α}
    {db db' : List MetricRow} {v' : α} (v : α) (h : exec 0 db = Attempt.ok v' db') :
    retryRun exec maximumNumberOfRetries 0 db v none 0 = ⟨db', v', none, 1, 0, false⟩ := by
  rw [show maximumNumberOfRetries = 1 :: [3, 5] from rfl]
  exact retryRun_cons_ok 1 [3, 5] v none 0 h

/-- If attempt 0 fails with an error the classifier marks non-retriable,
the whole operation is that one attempt: no retry, no sleep, that error. -/
theorem retryRun_sched_first_fail_final {α : Type}
    {exec : Nat → List MetricRow → Attempt α} {db : List MetricRow} {e' : DBError}
    (v : α) (h : exec 0 db = Attempt.fail e')
    (hr : (parseRetriableError (some e')).fst = false) :
    retryRun exec maximumNumberOfRetries 0 db v none 0 = ⟨db, v, some e', 1, 0, false⟩ := by
  rw [show maximumNumberOfRetries = 1 :: [3, 5] from rfl]
  exact retryRun_cons_fail_final 1 [3, 5] v none 0 h hr

/-- If attempt 0 panics, the whole operation panics during its first
attempt: no retry, no sleep. -/
theorem retryRun_sched_first_crash {α : Type}
    {exec : Nat → List MetricRow → Attempt α} {db : List MetricRow}
    (v : α) (h : exec 0 db = Attempt.crash) :
    retryRun exec maximumNumberOfRetries 0 db v none 0 = ⟨db, v, none, 1, 0, true⟩ := by
  rw [show maximumNumberOfRetries = 1 :: [3, 5] from rfl]
  exact retryRun_cons_crash 1 [3, 5] v none 0 h

/-- Three retriably failing attempts exhaust the [1, 3, 5] schedule: the
loop starts all three attempts, sleeps after every failure (1 + 3 + 5 = 9
seconds in total, including a sleep after the final attempt), and returns
the error observed on the final attempt. -/
theorem retryRun_sched_exhaust {α : Type} {exec : Nat → List MetricRow → Attempt α}
    {db : List MetricRow} {e0 e1 e2 : DBError}
    (h0 : exec 0 db = Attempt.fail e0) (hr0 : (parseRetriableError (some e0)).fst = true)
    (h1 : exec 1 db = Attempt.fail e1) (hr1 : (parseRetriableError (some e1)).fst = true)
    (h2 : exec 2 db = Attempt.fail e2) (hr2 : (parseRetriableError (some e2)).fst = true)
    (v : α) :
    retryRun exec maximumNumberOfRetries 0 db v none 0 = ⟨db, v, some e2, 3, 9, false⟩ := by
  rw [show maximumNumberOfRetries = 1 :: [3, 5] from rfl]
  rw [retryRun_cons_fail_retriable 1 [3, 5] v none 0 h0 hr0]
  rw [retryRun_cons_fail_retriable 3 [5] v (some e0) (0 + 1) h1 hr1]
  rw [retryRun_cons_fail_retriable 5 [] v (some e1) (0 + 1 + 3) h2 hr2]
  rfl

/-- Claim C6 (confirmed): the error classifier decides retriability exactly
by the stated rules — nil is not retriable; a `net.OpError` transport fault
is retriable; a database-engine `PgError` is retriable precisely when its
SQLSTATE code is in the connection-exception class; every other error
(constraint violations and other non-class-08 engine codes, no-rows-found,
any other error value) is not retriable. -/
theorem C6_classifier :
    (parseRetriableError none).fst = false ∧
    (∀ m, (parseRetriableError (some (DBError.netOpError m))).fst = true) ∧
    (∀ code, isConnectionException code = true →
      (parseRetriableError (some (DBError.pgError code))).fst = true) ∧
    (∀ code, isConnectionException code = false →
      (parseRetriableError (some (DBError.pgError code))).fst = false) ∧
    (parseRetriableError (some DBError.errNoRows)).fst = false ∧
    (∀ m, (parseRetriableError (some (DBError.otherError m))).fst = false) := by
  refine ⟨rfl, fun m => rfl, fun code hc => ?_, fun code hc => ?_, rfl, fun m => rfl⟩
  · simp [parseRetriableError, hc]
  · simp [parseRetriableError, hc]

/-- Witness for C6: the engine's connection-failure code 08006 is classified
retriable, the unique-violation (constraint) code 23505 is not. -/
theorem C6_classifier_witness :
    (parseRetriableError (some (DBError.pgError "08006"))).fst = true ∧
    (parseRetriableError (some (DBError.pgError "23505"))).fst = false := by
  have h := C6_classifier
  exact ⟨h.2.2.1 "08006" (by decide), h.2.2.2.1 "23505" (by decide)⟩

/-- Claim C2 (confirmed): for every store operation wrapped in the retry
loop, if attempt 0 returns nil or an error the classifier marks
non-retriable, the operation returns immediately with that result: exactly
one attempt is made and no sleep occurs.  In particular a constraint fault
(a non-class-08 engine error) causes exactly one attempt. -/
theorem C2_short_circuit (st : DatabaseStorage) (faults : Nat → Option DBError)
    (db : List MetricRow) (name : String) (value : Rat) (delta : Int)
    (hpb : st.preparesBuilt = true)
    (hnr : (parseRetriableError (faults 0)).fst = false) :
    ((SetGauge st faults db name value).attempts = 1 ∧
      (SetGauge st faults db name value).slept = 0 ∧
      (SetGauge st faults db name value).err = faults 0) ∧
    ((AddCounter st faults db name delta).attempts = 1 ∧
      (AddCounter st faults db name delta).slept = 0 ∧
      (AddCounter st faults db name delta).err = faults 0) ∧
    ((GetGauge st faults db name).attempts = 1 ∧
      (GetGauge st faults db name).slept = 0 ∧
      (∀ e, faults 0 = some e → (GetGauge st faults db name).err = some e)) ∧
    ((GetCounter st faults db name).attempts = 1 ∧
      (GetCounter st faults db name).slept = 0 ∧
      (∀ e, faults 0 = some e → (GetCounter st faults db name).err = some e)) ∧
    ((GetAll st faults db).attempts = 1 ∧
      (GetAll st faults db).slept = 0 ∧
      (GetAll st faults db).err = faults 0) := by
  cases hf0 : faults 0 with
  | none =>
    have hset : SetGauge st faults db name value =
        ⟨upsert db name "gauge" 0 value, (), none, 1, 0, false⟩ := by
      unfold SetGauge
      exact retryRun_sched_first_ok () (by simp [execSetOrUpdate, hpb, hf0])
    have hadd : AddCounter st faults db name delta =
        ⟨upsert db name "counter" delta 0, (), none, 1, 0, false⟩ := by
      unfold AddCounter
      exact retryRun_sched_first_ok () (by simp [execSetOrUpdate, hpb, hf0])
    have hgall : GetAll st faults db = ⟨db, db, none, 1, 0, false⟩ := by
      unfold GetAll
      exact retryRun_sched_first_ok [] (by simp [execGetAll, hf0])
    have hgg : (GetGauge st faults db name).attempts = 1 ∧
        (GetGauge st faults db name).slept = 0 := by
      cases hs : selectRow db name "gauge" with
      | some r =>
        have h : GetGauge st faults db name = ⟨db, some r.value, none, 1, 0, false⟩ := by
          unfold GetGauge
          exact retryRun_sched_first_ok none (by simp [execGetGauge, hpb, hf0, hs])
        simp [h]
      | none =>
        have h : GetGauge st faults db name =
            ⟨db, none, some DBError.errNoRows, 1, 0, false⟩ := by
          unfold GetGauge
          exact retryRun_sched_first_fail_final none
            (by simp [execGetGauge, hpb, hf0, hs]) rfl
        simp [h]
    have hgc : (GetCounter st faults db name).attempts = 1 ∧
        (GetCounter st faults db name).slept = 0 := by
      cases hs : selectRow db name "counter" with
      | some r =>
        have h : GetCounter st faults db name = ⟨db, some r.delta, none, 1, 0, false⟩ := by
          unfold GetCounter
          exact retryRun_sched_first_ok none (by simp [execGetCounter, hpb, hf0, hs])
        simp [h]
      | none =>
        have h : GetCounter st faults db name =
            ⟨db, none, some DBError.errNoRows, 1, 0, false⟩ := by
          unfold GetCounter
          exact retryRun_sched_first_fail_final none
            (by simp [execGetCounter, hpb, hf0, hs]) rfl
        simp [h]
    refine ⟨⟨by simp [hset], by simp [hset], by simp [hset, hf0]⟩,
      ⟨by simp [hadd], by simp [hadd], by simp [hadd, hf0]⟩,
      ⟨hgg.1, hgg.2, ?_⟩, ⟨hgc.1, hgc.2, ?_⟩,
      ⟨by simp [hgall], by simp [hgall], by simp [hgall, hf0]⟩⟩
    · intro e he
      simp at he
    · intro e he
      simp at he
  | some e0 =>
    have hre : (parseRetriableError (some e0)).fst = false := by rwa [hf0] at hnr
    have hset : SetGauge st faults db name value = ⟨db, (), some e0, 1, 0, false⟩ := by
      unfold SetGauge
      exact retryRun_sched_first_fail_final () (by simp [execSetOrUpdate, hpb, hf0]) hre
    have hadd : AddCounter st faults db name delta = ⟨db, (), some e0, 1, 0, false⟩ := by
      unfold AddCounter
      exact retryRun_sched_first_fail_final () (by simp [execSetOrUpdate, hpb, hf0]) hre
    have hgg : GetGauge st faults db name = ⟨db, none, some e0, 1, 0, false⟩ := by
      unfold GetGauge
      exact retryRun_sched_first_fail_final none (by simp [execGetGauge, hpb, hf0]) hre
    have hgc : GetCounter st faults db name = ⟨db, none, some e0, 1, 0, false⟩ := by
      unfold GetCounter
      exact retryRun_sched_first_fail_final none (by simp [execGetCounter, hpb, hf0]) hre
    have hgall : GetAll st faults db = ⟨db, [], some e0, 1, 0, false⟩ := by
      unfold GetAll
      exact retryRun_sched_first_fail_final [] (by simp [execGetAll, hf0]) hre
    refine ⟨⟨by simp [hset], by simp [hset], by simp [hset, hf0]⟩,
      ⟨by simp [hadd], by simp [hadd], by simp [hadd, hf0]⟩,
      ⟨by simp [hgg], by simp [hgg], ?_⟩, ⟨by simp [hgc], by simp [hgc], ?_⟩,
      ⟨by simp [hgall], by simp [hgall], by simp [hgall, hf0]⟩⟩
    · intro e he
      injection he with h
      rw [hgg, ← h]
    · intro e he
      injection he with h
      rw [hgc, ← h]

/-- Witness for C2: a unique-violation constraint fault (SQLSTATE 23505) on
a fresh store makes SetGauge stop after exactly one attempt with no sleep,
surfacing that error. -/
theorem C2_short_circuit_witness :
    (SetGauge ⟨true⟩ (fun _ => some (DBError.pgError "23505")) [] "temp" 1).attempts = 1 ∧
    (SetGauge ⟨true⟩ (fun _ => some (DBError.pgError "23505")) [] "temp" 1).slept = 0 ∧
    (SetGauge ⟨true⟩ (fun _ => some (DBError.pgError "23505")) [] "temp" 1).err =
      some (DBError.pgError "23505") := by
  have h := C2_short_circuit ⟨true⟩ (fun _ => some (DBError.pgError "23505"))
    [] "temp" 1 2 rfl (by decide)
  exact h.1

/-- Counterexample to claim C1 as stated: with every attempt failing on a
connection-reset transport fault, SetGauge sleeps 1 + 3 + 5 = 9 seconds in
total, not the claimed 1 + 3 = 4 — the loop body sleeps after every failed
retriable attempt, including the final one. -/
theorem C1_counterexample :
    (SetGauge ⟨true⟩ (fun _ => some (DBError.netOpError "connection reset by peer"))
        [] "Alloc" 1).slept = 9 ∧
    (SetGauge ⟨true⟩ (fun _ => some (DBError.netOpError "connection reset by peer"))
        [] "Alloc" 1).slept ≠ 1 + 3 := by
  decide

/-- Claim C1 (amended): if every attempt fails with a retriable
(connectivity) fault, each of the five store operations executes the
attempt exactly len(schedule) = 3 times, returns the last observed error
after the final attempt, and sleeps cumulatively for the sum of all
schedule entries, 1 + 3 + 5 = 9 seconds. -/
theorem C1_retry_bound (st : DatabaseStorage) (faults : Nat → Option DBError)
    (db : List MetricRow) (name : String) (value : Rat) (delta : Int)
    (hpb : st.preparesBuilt = true)
    (hf : ∀ i, i < 3 → (parseRetriableError (faults i)).fst = true) :
    ((SetGauge st faults db name value).attempts = 3 ∧
      (SetGauge st faults db name value).err = faults 2 ∧
      (SetGauge st faults db name value).slept = 9) ∧
    ((AddCounter st faults db name delta).attempts = 3 ∧
      (AddCounter st faults db name delta).err = faults 2 ∧
      (AddCounter st faults db name delta).slept = 9) ∧
    ((GetGauge st faults db name).attempts = 3 ∧
      (GetGauge st faults db name).err = faults 2 ∧
      (GetGauge st faults db name).slept = 9) ∧
    ((GetCounter st faults db name).attempts = 3 ∧
      (GetCounter st faults db name).err = faults 2 ∧
      (GetCounter st faults db name).slept = 9) ∧
    ((GetAll st faults db).attempts = 3 ∧
      (GetAll st faults db).err = faults 2 ∧
      (GetAll st faults db).slept = 9) := by
  have hsome : ∀ i, i < 3 →
      ∃ e, faults i = some e ∧ (parseRetriableError (some e)).fst = true := by
    intro i hi
    cases hfi : faults i with
    | none =>
      have h := hf i hi
      rw [hfi] at h
      simp [parseRetriableError] at h
    | some e =>
      have h := hf i hi
      rw [hfi] at h
      exact ⟨e, rfl, h⟩
  obtain ⟨e0, hf0, hr0⟩ := hsome 0 (by decide)
  obtain ⟨e1, hf1, hr1⟩ := hsome 1 (by decide)
  obtain ⟨e2, hf2, hr2⟩ := hsome 2 (by decide)
  have hset : SetGauge st faults db name value = ⟨db, (), some e2, 3, 9, false⟩ := by
    unfold SetGauge
    exact retryRun_sched_exhaust
      (by simp [execSetOrUpdate, hpb, hf0]) hr0
      (by simp [execSetOrUpdate, hpb, hf1]) hr1
      (by simp [execSetOrUpdate, hpb, hf2]) hr2 ()
  have hadd : AddCounter st faults db name delta = ⟨db, (), some e2, 3, 9, false⟩ := by
    unfold AddCounter
    exact retryRun_sched_exhaust
      (by simp [execSetOrUpdate, hpb, hf0]) hr0
      (by simp [execSetOrUpdate, hpb, hf1]) hr1
      (by simp [execSetOrUpdate, hpb, hf2]) hr2 ()
  have hgg : GetGauge st faults db name = ⟨db, none, some e2, 3, 9, false⟩ := by
    unfold GetGauge
    exact retryRun_sched_exhaust
      (by simp [execGetGauge, hpb, hf0]) hr0
      (by simp [execGetGauge, hpb, hf1]) hr1
      (by simp [execGetGauge, hpb, hf2]) hr2 none
  have hgc : GetCounter st faults db name = ⟨db, none, some e2, 3, 9, false⟩ := by
    unfold GetCounter
    exact retryRun_sched_exhaust
      (by simp [execGetCounter, hpb, hf0]) hr0
      (by simp [execGetCounter, hpb, hf1]) hr1
      (by simp [execGetCounter, hpb, hf2]) hr2 none
  have hgall : GetAll st faults db = ⟨db, [], some e2, 3, 9, false⟩ := by
    unfold GetAll
    exact retryRun_sched_exhaust
      (by simp [execGetAll, hf0]) hr0
      (by simp [execGetAll, hf1]) hr1
      (by simp [execGetAll, hf2]) hr2 []
  exact ⟨⟨by simp [hset], by simp [hset, hf2], by simp [hset]⟩,
    ⟨by simp [hadd], by simp [hadd, hf2], by simp [hadd]⟩,
    ⟨by simp [hgg], by simp [hgg, hf2], by simp [hgg]⟩,
    ⟨by simp [hgc], by simp [hgc, hf2], by simp [hgc]⟩,
    ⟨by simp [hgall], by simp [hgall, hf2], by simp [hgall]⟩⟩

/-- Witness for the amended C1: a persistent broken-pipe fault makes
SetGauge run 3 attempts, surface that fault, and sleep 9 seconds. -/
theorem C1_retry_bound_witness :
    (SetGauge ⟨true⟩ (fun _ => some (DBError.netOpError "broken pipe"))
        [] "PollCount" 1).attempts = 3 ∧
    (SetGauge ⟨true⟩ (fun _ => some (DBError.netOpError "broken pipe"))
        [] "PollCount" 1).err = some (DBError.netOpError "broken pipe") ∧
    (SetGauge ⟨true⟩ (fun _ => some (DBError.netOpError "broken pipe"))
        [] "PollCount" 1).slept = 9 := by
  have h := C1_retry_bound ⟨true⟩ (fun _ => some (DBError.netOpError "broken pipe"))
    [] "PollCount" 1 2 rfl (fun i _ => rfl)
  exact h.1

/-- Against a reachable database with built prepares, `GetGauge` returns in
`value` exactly the stored gauge value of the name (nil when absent). -/
theorem GetGauge_noFaults_val (db : List MetricRow) (name : String) :
    (GetGauge ⟨true⟩ noFaults db name).val =
      (selectRow db name "gauge").map (fun r => r.value) := by
  cases hs : selectRow db name "gauge" with
  | some r =>
    have h := @retryRun_sched_first_ok (Option Rat) (execGetGauge true noFaults name)
      db db (some r.value) none
      (by simp [execGetGauge, noFaults, hs])
    unfold GetGauge
    simp only [show (⟨true⟩ : DatabaseStorage).preparesBuilt = true from rfl]
    rw [h]
    rfl
  | none =>
    have h := @retryRun_sched_first_fail_final (Option Rat) (execGetGauge true noFaults name)
      db DBError.errNoRows none
      (by simp [execGetGauge, noFaults, hs]) rfl
    unfold GetGauge
    simp only [show (⟨true⟩ : DatabaseStorage).preparesBuilt = true from rfl]
    rw [h]
    rfl

/-- Against a reachable database with built prepares, `GetCounter` returns
in `value` exactly the stored counter delta of the name (nil when absent). -/
theorem GetCounter_noFaults_val (db : List MetricRow) (name : String) :
    (GetCounter ⟨true⟩ noFaults db name).val =
      (selectRow db name "counter").map (fun r => r.delta) := by
  cases hs : selectRow db name "counter" with
  | some r =>
    have h := @retryRun_sched_first_ok (Option Int) (execGetCounter true noFaults name)
      db db (some r.delta) none
      (by simp [execGetCounter, noFaults, hs])
    unfold GetCounter
    simp only [show (⟨true⟩ : DatabaseStorage).preparesBuilt = true from rfl]
    rw [h]
    rfl
  | none =>
    have h := @retryRun_sched_first_fail_final (Option Int) (execGetCounter true noFaults name)
      db DBError.errNoRows none
      (by simp [execGetCounter, noFaults, hs]) rfl
    unfold GetCounter
    simp only [show (⟨true⟩ : DatabaseStorage).preparesBuilt = true from rfl]
    rw [h]
    rfl

/-- Claim C3 (confirmed): additive merge — starting from a state with no
counter row for n, a successful AddCounter(n, d1) followed by a successful
AddCounter(n, d2) makes GetCounter(n) return d1 + d2: the upsert's conflict
branch adds the incoming delta to the existing one. -/
theorem C3_additive_merge (st1 st2 st3 : DatabaseStorage)
    (f1 f2 f3 : Nat → Option DBError) (db : List MetricRow) (n : String) (d1 d2 : Int)
    (h0 : selectRow db n "counter" = none)
    (hcr1 : (AddCounter st1 f1 db n d1).crashed = false)
    (herr1 : (AddCounter st1 f1 db n d1).err = none)
    (hcr2 : (AddCounter st2 f2 (AddCounter st1 f1 db n d1).db n d2).crashed = false)
    (herr2 : (AddCounter st2 f2 (AddCounter st1 f1 db n d1).db n d2).err = none)
    (hcr3 : (GetCounter st3 f3
      (AddCounter st2 f2 (AddCounter st1 f1 db n d1).db n d2).db n).crashed = false)
    (herr3 : (GetCounter st3 f3
      (AddCounter st2 f2 (AddCounter st1 f1 db n d1).db n d2).db n).err = none) :
    (GetCounter st3 f3
      (AddCounter st2 f2 (AddCounter st1 f1 db n d1).db n d2).db n).val =
      some (d1 + d2) := by
  have e3 := (GetCounter_success st3 f3
    (AddCounter st2 f2 (AddCounter st1 f1 db n d1).db n d2).db n hcr3 herr3).1
  have e2 := AddCounter_success_db st2 f2 (AddCounter st1 f1 db n d1).db n d2 hcr2 herr2
  have e1 := AddCounter_success_db st1 f1 db n d1 hcr1 herr1
  rw [e3, e2, e1]
  have s1 := selectRow_upsert_self_of_none db n "counter" d1 0 h0
  have s2 := selectRow_upsert_self_of_some (upsert db n "counter" d1 0) n "counter" d2 0
    { name := n, mtype := "counter", delta := d1, value := 0 } s1
  rw [s2]
  rfl

/-- Witness for C3: AddCounter("hits", 1) then AddCounter("hits", 2) on an
empty fault-free store, then GetCounter("hits") = 3 (Scenario B). -/
theorem C3_additive_merge_witness :
    (GetCounter ⟨true⟩ noFaults
      (AddCounter ⟨true⟩ noFaults (AddCounter ⟨true⟩ noFaults [] "hits" 1).db "hits" 2).db
      "hits").val = some (1 + 2) := by
  exact C3_additive_merge ⟨true⟩ ⟨true⟩ ⟨true⟩ noFaults noFaults noFaults [] "hits" 1 2
    rfl (by decide) (by decide) (by decide) (by decide) (by decide) (by decide)

/-- Claim C4 (confirmed): last-write-wins — a successful SetGauge(n, v1)
followed by a successful SetGauge(n, v2) makes GetGauge(n) return v2, and
the gauge writes supply delta = 0 so the additive merge leaves the row's
delta unchanged (0 for a fresh row, the pre-existing delta otherwise). -/
theorem C4_last_write_wins (st1 st2 st3 : DatabaseStorage)
    (f1 f2 f3 : Nat → Option DBError) (db : List MetricRow) (n : String) (v1 v2 : Rat)
    (hcr1 : (SetGauge st1 f1 db n v1).crashed = false)
    (herr1 : (SetGauge st1 f1 db n v1).err = none)
    (hcr2 : (SetGauge st2 f2 (SetGauge st1 f1 db n v1).db n v2).crashed = false)
    (herr2 : (SetGauge st2 f2 (SetGauge st1 f1 db n v1).db n v2).err = none)
    (hcr3 : (GetGauge st3 f3
      (SetGauge st2 f2 (SetGauge st1 f1 db n v1).db n v2).db n).crashed = false)
    (herr3 : (GetGauge st3 f3
      (SetGauge st2 f2 (SetGauge st1 f1 db n v1).db n v2).db n).err = none) :
    (GetGauge st3 f3
      (SetGauge st2 f2 (SetGauge st1 f1 db n v1).db n v2).db n).val = some v2 ∧
    (selectRow (SetGauge st2 f2 (SetGauge st1 f1 db n v1).db n v2).db n "gauge").map
        (fun r => r.delta) =
      some ((selectRow db n "gauge").elim 0 (fun r => r.delta)) := by
  have e3 := (GetGauge_success st3 f3
    (SetGauge st2 f2 (SetGauge st1 f1 db n v1).db n v2).db n hcr3 herr3).1
  have e2 := SetGauge_success_db st2 f2 (SetGauge st1 f1 db n v1).db n v2 hcr2 herr2
  have e1 := SetGauge_success_db st1 f1 db n v1 hcr1 herr1
  rw [e3, e2, e1]
  cases hs0 : selectRow db n "gauge" with
  | none =>
    have s1 := selectRow_upsert_self_of_none db n "gauge" 0 v1 hs0
    have s2 := selectRow_upsert_self_of_some (upsert db n "gauge" 0 v1) n "gauge" 0 v2
      { name := n, mtype := "gauge", delta := 0, value := v1 } s1
    rw [s2]
    constructor <;> rfl
  | some r0 =>
    have s1 := selectRow_upsert_self_of_some db n "gauge" 0 v1 r0 hs0
    have s2 := selectRow_upsert_self_of_some (upsert db n "gauge" 0 v1) n "gauge" 0 v2
      { name := r0.name, mtype := r0.mtype, delta := r0.delta + 0, value := v1 } s1
    rw [s2]
    constructor
    · rfl
    · simp

/-- Witness for C4: SetGauge("temp", 1) then SetGauge("temp", 2) on an
empty fault-free store, then GetGauge("temp") = 2 with delta 0. -/
theorem C4_last_write_wins_witness :
    (GetGauge ⟨true⟩ noFaults
      (SetGauge ⟨true⟩ noFaults (SetGauge ⟨true⟩ noFaults [] "temp" 1).db "temp" 2).db
      "temp").val = some 2 ∧
    (selectRow (SetGauge ⟨true⟩ noFaults (SetGauge ⟨true⟩ noFaults [] "temp" 1).db
        "temp" 2).db "temp" "gauge").map (fun r => r.delta) =
      some ((selectRow [] "temp" "gauge").elim 0 (fun r => r.delta)) := by
  exact C4_last_write_wins ⟨true⟩ ⟨true⟩ ⟨true⟩ noFaults noFaults noFaults [] "temp" 1 2
    (by decide) (by decide) (by decide) (by decide) (by decide) (by decide)

/-- Claim C5 (confirmed): key independence — a successful SetGauge(n, v)
leaves every counter row (any name) unchanged, a successful AddCounter(n, d)
leaves every gauge row unchanged, and the reads GetGauge / GetCounter
reflect only rows of their own kind, so each read's result is unchanged by
a write of the other kind. -/
theorem C5_key_independence (st1 st2 : DatabaseStorage)
    (f1 f2 : Nat → Option DBError) (db : List MetricRow) (n : String)
    (v : Rat) (d : Int)
    (hcr1 : (SetGauge st1 f1 db n v).crashed = false)
    (herr1 : (SetGauge st1 f1 db n v).err = none)
    (hcr2 : (AddCounter st2 f2 db n d).crashed = false)
    (herr2 : (AddCounter st2 f2 db n d).err = none) :
    (∀ n', selectRow (SetGauge st1 f1 db n v).db n' "counter" =
      selectRow db n' "counter") ∧
    (∀ n', selectRow (AddCounter st2 f2 db n d).db n' "gauge" =
      selectRow db n' "gauge") ∧
    (∀ n', (GetCounter ⟨true⟩ noFaults (SetGauge st1 f1 db n v).db n').val =
      (GetCounter ⟨true⟩ noFaults db n').val) ∧
    (∀ n', (GetGauge ⟨true⟩ noFaults (AddCounter st2 f2 db n d).db n').val =
      (GetGauge ⟨true⟩ noFaults db n').val) := by
  have e1 := SetGauge_success_db st1 f1 db n v hcr1 herr1
  have e2 := AddCounter_success_db st2 f2 db n d hcr2 herr2
  have hfr1 : ∀ n', selectRow (SetGauge st1 f1 db n v).db n' "counter" =
      selectRow db n' "counter" := by
    intro n'
    rw [e1]
    exact selectRow_upsert_frame db n "gauge" n' "counter" 0 v
      (fun hh => absurd hh.2 (by decide))
  have hfr2 : ∀ n', selectRow (AddCounter st2 f2 db n d).db n' "gauge" =
      selectRow db n' "gauge" := by
    intro n'
    rw [e2]
    exact selectRow_upsert_frame db n "counter" n' "gauge" d 0
      (fun hh => absurd hh.2 (by decide))
  refine ⟨hfr1, hfr2, fun n' => ?_, fun n' => ?_⟩
  · rw [GetCounter_noFaults_val, GetCounter_noFaults_val, hfr1 n']
  · rw [GetGauge_noFaults_val, GetGauge_noFaults_val, hfr2 n']

/-- Witness for C5: over a store holding the counter row (hits, 7) and the
gauge row (temp, 1), SetGauge("hits", 2) leaves the counter row and its
read unchanged, and AddCounter("temp", 3) leaves the gauge row and its
read unchanged. -/
theorem C5_key_independence_witness :
    (selectRow (SetGauge ⟨true⟩ noFaults
        [⟨"hits", "counter", 7, 0⟩, ⟨"temp", "gauge", 0, 1⟩] "hits" 2).db
        "hits" "counter" =
      selectRow [⟨"hits", "counter", 7, 0⟩, ⟨"temp", "gauge", 0, 1⟩] "hits" "counter") ∧
    ((GetGauge ⟨true⟩ noFaults (AddCounter ⟨true⟩ noFaults
        [⟨"hits", "counter", 7, 0⟩, ⟨"temp", "gauge", 0, 1⟩] "temp" 3).db "temp").val =
      (GetGauge ⟨true⟩ noFaults
        [⟨"hits", "counter", 7, 0⟩, ⟨"temp", "gauge", 0, 1⟩] "temp").val) := by
  have h := C5_key_independence ⟨true⟩ ⟨true⟩ noFaults noFaults
    [⟨"hits", "counter", 7, 0⟩, ⟨"temp", "gauge", 0, 1⟩] "hits" 2 3
    (by decide) (by decide) (by decide) (by decide)
  have h' := C5_key_independence ⟨true⟩ ⟨true⟩ noFaults noFaults
    [⟨"hits", "counter", 7, 0⟩, ⟨"temp", "gauge", 0, 1⟩] "temp" 2 3
    (by decide) (by decide) (by decide) (by decide)
  exact ⟨h.1 "hits", h'.2.2.2 "temp"⟩

/-- Claim C7 (confirmed): if the initial ping fails, schema bootstrap and
statement preparation are skipped and construction still succeeds with a
usable handle (prepares not built); if the ping succeeds, a DDL failure or
any statement-compilation failure fails construction with that error and no
store is returned; with all steps succeeding the fully built store is
returned.  A compilation error exists exactly when one of the three
statements fails to compile. -/
theorem C7_construction (env : ConstructionEnv) :
    (∀ e, env.pingErr = some e → New env = Except.ok ⟨false⟩) ∧
    (∀ e, env.pingErr = none → env.ddlErr = some e → New env = Except.error e) ∧
    (env.pingErr = none → env.ddlErr = none → ∀ e, buildPrepares env = some e →
      New env = Except.error e) ∧
    (env.pingErr = none → env.ddlErr = none → buildPrepares env = none →
      New env = Except.ok ⟨true⟩) ∧
    ((buildPrepares env).isSome ↔
      (env.prepGetGaugeErr.isSome ∨ env.prepGetCounterErr.isSome ∨
        env.prepSetOrUpdateErr.isSome)) := by
  refine ⟨?_, ?_, ?_, ?_, ?_⟩
  · intro e hp
    simp [New, hp]
  · intro e hp hd
    simp [New, hp, hd]
  · intro hp hd e hb
    simp [New, hp, hd, hb]
  · intro hp hd hb
    simp [New, hp, hd, hb]
  · cases h1 : env.prepGetGaugeErr <;> cases h2 : env.prepGetCounterErr <;>
      cases h3 : env.prepSetOrUpdateErr <;> simp [buildPrepares, h1, h2, h3]

/-- Witness for C7: a failed ping yields a degraded but successful
construction; a DDL error and a statement-compilation error are each fatal
with that error; the all-success path returns the built store. -/
theorem C7_construction_witness :
    New ⟨some (DBError.netOpError "connection refused"), none, none, none, none⟩ =
      Except.ok ⟨false⟩ ∧
    New ⟨none, some (DBError.otherError "ddl failed"), none, none, none⟩ =
      Except.error (DBError.otherError "ddl failed") ∧
    New ⟨none, none, none, none, some (DBError.otherError "prepare failed")⟩ =
      Except.error (DBError.otherError "prepare failed") ∧
    New ⟨none, none, none, none, none⟩ = Except.ok ⟨true⟩ := by
  have h1 := C7_construction ⟨some (DBError.netOpError "connection refused"),
    none, none, none, none⟩
  have h2 := C7_construction ⟨none, some (DBError.otherError "ddl failed"),
    none, none, none⟩
  have h3 := C7_construction ⟨none, none, none, none,
    some (DBError.otherError "prepare failed")⟩
  have h4 := C7_construction ⟨none, none, none, none, none⟩
  exact ⟨h1.1 _ rfl, h2.2.1 _ rfl rfl, h3.2.2.1 rfl rfl _ rfl, h4.2.2.2.1 rfl rfl rfl⟩

/-- Claim C8 (code bug, evaluated): construction against an unreachable
database succeeds in degraded mode with prepares never built, but the
subsequent SetGauge call does not return a ConnectivityFault after
exhausting the retry schedule as claimed — its first attempt executes the
nil (never compiled) `setOrUpdateMetric` statement, which dereferences a
nil pointer and panics: the run crashes during attempt 1 with no sleep and
no error value ever produced. -/
theorem C8_degraded_setGauge_crashes :
    New ⟨some (DBError.netOpError "connect: connection refused"),
        none, none, none, none⟩ = Except.ok ⟨false⟩ ∧
    (SetGauge ⟨false⟩ noFaults [] "temp" 1).crashed = true ∧
    (SetGauge ⟨false⟩ noFaults [] "temp" 1).attempts = 1 ∧
    (SetGauge ⟨false⟩ noFaults [] "temp" 1).slept = 0 ∧
    (SetGauge ⟨false⟩ noFaults [] "temp" 1).err = none := by
  refine ⟨rfl, ?_, ?_, ?_, ?_⟩ <;> decide

/-- Claim C9 (confirmed): reading a name never written on a reachable,
fault-free store makes exactly one attempt with no retry and no sleep,
returns an absent value (nil pointer), and the accompanying `errNoRows` is
not raised as a classified fault: the classifier marks it non-retriable and
produces no DatabaseError detail. -/
theorem C9_absent_read (db : List MetricRow) (n : String)
    (hg : selectRow db n "gauge" = none) (hc : selectRow db n "counter" = none) :
    ((GetGauge ⟨true⟩ noFaults db n).val = none ∧
      (GetGauge ⟨true⟩ noFaults db n).attempts = 1 ∧
      (GetGauge ⟨true⟩ noFaults db n).slept = 0 ∧
      (GetGauge ⟨true⟩ noFaults db n).crashed = false ∧
      (GetGauge ⟨true⟩ noFaults db n).err = some DBError.errNoRows ∧
      parseRetriableError (GetGauge ⟨true⟩ noFaults db n).err = (false, none)) ∧
    ((GetCounter ⟨true⟩ noFaults db n).val = none ∧
      (GetCounter ⟨true⟩ noFaults db n).attempts = 1 ∧
      (GetCounter ⟨true⟩ noFaults db n).slept = 0 ∧
      (GetCounter ⟨true⟩ noFaults db n).crashed = false ∧
      (GetCounter ⟨true⟩ noFaults db n).err = some DBError.errNoRows ∧
      parseRetriableError (GetCounter ⟨true⟩ noFaults db n).err = (false, none)) := by
  have h1 := @retryRun_sched_first_fail_final (Option Rat) (execGetGauge true noFaults n)
    db DBError.errNoRows none (by simp [execGetGauge, noFaults, hg]) rfl
  have h2 := @retryRun_sched_first_fail_final (Option Int) (execGetCounter true noFaults n)
    db DBError.errNoRows none (by simp [execGetCounter, noFaults, hc]) rfl
  have hg' : GetGauge ⟨true⟩ noFaults db n =
      ⟨db, none, some DBError.errNoRows, 1, 0, false⟩ := h1
  have hc' : GetCounter ⟨true⟩ noFaults db n =
      ⟨db, none, some DBError.errNoRows, 1, 0, false⟩ := h2
  constructor <;> simp [hg', hc', parseRetriableError]

/-- Witness for C9: GetGauge("unknown") and GetCounter("unknown") on the
empty store (Scenario C). -/
theorem C9_absent_read_witness :
    (GetGauge ⟨true⟩ noFaults [] "unknown").val = none ∧
    (GetGauge ⟨true⟩ noFaults [] "unknown").attempts = 1 ∧
    (GetCounter ⟨true⟩ noFaults [] "unknown").val = none ∧
    parseRetriableError (GetGauge ⟨true⟩ noFaults [] "unknown").err = (false, none) := by
  have h := C9_absent_read [] "unknown" rfl rfl
  exact ⟨h.1.1, h.1.2.1, h.2.1, h.1.2.2.2.2.2⟩

/-- Claim C10 (confirmed): the update handlers' response status never
depends on the storage write outcome (UpdateByURI and UpdateByBody discard
the error returned by SetGauge / AddCounter), and a well-formed update
request is acknowledged with status 200 OK even when the underlying write
failed. -/
theorem C10_update_discards_write_error (reqU : URIRequest) (reqB : BodyRequest)
    (e e' ec ec' : Option DBError) :
    (UpdateByURI reqU e = UpdateByURI reqU e') ∧
    (UpdateByBody reqB e ec = UpdateByBody reqB e' ec') ∧
    (reqU.contentTypeOk = true → reqU.name ≠ "" → reqU.mtype = "gauge" →
      reqU.parsedValue.isSome → UpdateByURI reqU e = 200) ∧
    (reqU.contentTypeOk = true → reqU.name ≠ "" → reqU.mtype = "counter" →
      reqU.parsedDelta.isSome → UpdateByURI reqU e = 200) ∧
    (reqB.contentTypeOk = true → reqB.bindOk = true → UpdateByBody reqB e ec = 200) := by
  refine ⟨rfl, rfl, ?_, ?_, ?_⟩
  · intro hct hn hm hv
    obtain ⟨w, hpv⟩ := Option.isSome_iff_exists.mp hv
    unfold UpdateByURI
    rw [hct, hm, hpv]
    simp [hn]
  · intro hct hn hm hd
    obtain ⟨w, hpd⟩ := Option.isSome_iff_exists.mp hd
    have hne : ("counter" : String) = "gauge" ↔ False := by
      constructor
      · intro hx
        exact absurd hx (by decide)
      · intro hx
        exact hx.elim
    unfold UpdateByURI
    rw [hct, hm, hpd]
    simp [hn, hne]
  · intro hct hb
    unfold UpdateByBody
    rw [hct, hb]
    simp

/-- Witness for C10: a gauge update by URI and a counter update by body are
both acknowledged 200 although the storage write failed with a broken-pipe
fault (and the follow-up counter read failed with no-rows). -/
theorem C10_update_discards_write_error_witness :
    UpdateByURI ⟨true, "temp", "gauge", some 1, none⟩
      (some (DBError.netOpError "broken pipe")) = 200 ∧
    UpdateByBody ⟨true, true, 400, "counter"⟩
      (some (DBError.netOpError "broken pipe")) (some DBError.errNoRows) = 200 := by
  have h := C10_update_discards_write_error ⟨true, "temp", "gauge", some 1, none⟩
    ⟨true, true, 400, "counter"⟩ (some (DBError.netOpError "broken pipe")) none
    (some DBError.errNoRows) none
  exact ⟨h.2.2.1 rfl (by decide) rfl rfl, h.2.2.2.2 rfl rfl⟩
